import Mathlib

/-! # EG8XObjectUpdateModifier

A shallow embedding of
`RecoEgamma/EgammaTools/plugins/EG8XObjectUpdateModifier.cc`:
the saturation summary (`getSaturationInfo`) and the electron / photon
updates (`modifyObject`), followed by the properties proved about them.

Conventions of the embedding.

* A C++ `float` is only ever copied by this plugin (library result into a
  record field); no floating-point arithmetic is performed by it.  The values
  are therefore carried as uninterpreted rational numbers.
* The C++ `int` counter `nrSatCrys` is a mathematical integer.  It is
  incremented at most once per element of `hitsAndFractions`
  (`getSaturationInfo_count_le_length`), so it cannot leave the range of a
  32-bit `int` for any cluster with fewer than `2^31` constituents.
* Pointers / handles (`superCluster()`, `seed()`, `ecalRecHitsEB_`, ...) are
  dereferenced values: the plugin assumes they are set and valid.
* The mutation of a candidate through a reference is explicit state passing:
  `modifyObject` returns the updated candidate.
-/

namespace EG8X

/-! ## Data model -/

/-- Values of C++ type `float`; they are copied, never computed with. -/
abbrev float := ℚ

/-- Modelled from the spec: `DetId` (DataFormats/DetId/interface/DetId.h) is
not part of the plugin source.  A crystal identifier is its raw 32-bit word. -/
abbrev DetId := Nat

/-- Modelled from the spec: `DetId::subdetId()` is not part of the plugin
source; it is "the subdetector identifier embedded in the crystal identifier":
the three bits above bit 25 of the raw word, `(id_ >> 25) & 0x7`. -/
def DetId.subdetId (id : DetId) : Nat := (id / 2 ^ 25) % 8

/-- Modelled from the spec: the enumerator `EcalBarrel` of
DataFormats/EcalDetId/interface/EcalSubdetector.h (the central region). -/
def EcalBarrel : Nat := 1

/-- Modelled from the spec: `EcalRecHit` is declared outside the plugin
source.  Section 3: "a hit record carrying energy, timing, and a set of
quality flags (including a saturated flag)".  `saturated` is the value of
`checkFlag(EcalRecHit::Flags::kSaturated)`; `otherFlags` holds the remaining
flag bits. -/
structure EcalRecHit where
  id : DetId
  energy : float
  time : float
  saturated : Bool
  otherFlags : Nat
  deriving DecidableEq

/-- The test `checkFlag(EcalRecHit::Flags::kSaturated)` of line 103. -/
def EcalRecHit.checkFlag_kSaturated (hit : EcalRecHit) : Bool := hit.saturated

/-- Modelled from the spec: `EcalRecHitCollection` is declared outside the
plugin source.  Section 3: "a mapping from crystal identifier to a hit
record", where "not every crystal identifier is guaranteed to have an entry":
a partial map. -/
abbrev EcalRecHitCollection := DetId → Option EcalRecHit

/-- The lookup `ecalRecHits.find(id)`; `none` stands for `ecalRecHits.end()`. -/
def EcalRecHitCollection.find (ecalRecHits : EcalRecHitCollection) (id : DetId) :
    Option EcalRecHit :=
  ecalRecHits id

/-- Modelled from the spec: `CaloTopology` is "an opaque geometry descriptor",
read-only for the plugin. -/
structure CaloTopology where
  descriptor : Nat
  deriving DecidableEq

/-- Modelled from the spec: `reco::CaloCluster`, reduced to what the plugin
reads: the ordered list of (crystal identifier, energy fraction) pairs
returned by `hitsAndFractions()` and the distinguished highest-energy crystal
identifier returned by `seed()`. -/
structure CaloCluster where
  hitsAndFractions : List (DetId × float)
  seed : DetId
  deriving DecidableEq

/-- Modelled from the spec: `reco::SuperCluster` (the cluster group): one
designated seed cluster, returned by `seed()`, and further clusters which the
plugin never reads. -/
structure SuperCluster where
  seed : CaloCluster
  clusters : List CaloCluster
  deriving DecidableEq

/-- Modelled from the spec: `reco::GsfElectron::ShowerShape`, declared outside
the plugin source: the four fields the plugin assigns, and every other field
of the "otherwise-opaque struct" kept as one uninterpreted payload. -/
structure ShowerShape where
  e2x5Left : float
  e2x5Right : float
  e2x5Top : float
  e2x5Bottom : float
  otherFields : List float
  deriving DecidableEq

/-- The record `SaturationInfo` of electrons and photons, with the two fields
the plugin assigns (lines 81-82 and 89-90). -/
structure SaturationInfo where
  nSaturatedXtals : Int
  isSeedSaturated : Bool
  deriving DecidableEq

/-- Modelled from the spec: `reco::GsfElectron`, reduced to the attributes the
plugin reads or writes: the cluster group, the region flag `isEB()`, the two
shower-shape summaries and the saturation summary. -/
structure GsfElectron where
  superCluster : SuperCluster
  isEB : Bool
  full5x5_showerShape : ShowerShape
  showerShape : ShowerShape
  saturationInfo : SaturationInfo
  deriving DecidableEq

/-- The setter `full5x5_setShowerShape`. -/
def GsfElectron.full5x5_setShowerShape (ele : GsfElectron) (s : ShowerShape) : GsfElectron :=
  { ele with full5x5_showerShape := s }

/-- The setter `setShowerShape`. -/
def GsfElectron.setShowerShape (ele : GsfElectron) (s : ShowerShape) : GsfElectron :=
  { ele with showerShape := s }

/-- The setter `setSaturationInfo`. -/
def GsfElectron.setSaturationInfo (ele : GsfElectron) (s : SaturationInfo) : GsfElectron :=
  { ele with saturationInfo := s }

/-- Modelled from the spec: `reco::Photon`, reduced like `GsfElectron`. -/
structure Photon where
  superCluster : SuperCluster
  isEB : Bool
  full5x5_showerShape : ShowerShape
  showerShape : ShowerShape
  saturationInfo : SaturationInfo
  deriving DecidableEq

/-- The setter `setSaturationInfo` of a photon. -/
def Photon.setSaturationInfo (pho : Photon) (s : SaturationInfo) : Photon :=
  { pho with saturationInfo := s }

/-- Modelled from the spec: one mode of the external shape-summation library
(`EcalClusterToolsT<noZS>`): four opaque pure functions of the seed cluster,
the hit collection and the topology. -/
structure EcalClusterToolsT where
  e2x5Left : CaloCluster → EcalRecHitCollection → CaloTopology → float
  e2x5Right : CaloCluster → EcalRecHitCollection → CaloTopology → float
  e2x5Top : CaloCluster → EcalRecHitCollection → CaloTopology → float
  e2x5Bottom : CaloCluster → EcalRecHitCollection → CaloTopology → float

/-- The data members of the plugin object that the update reads (lines 37-39):
the topology and the two hit collections, as set by `setEventContent` and
`setEvent`. -/
structure EG8XObjectUpdateModifier where
  caloTopo_ : CaloTopology
  ecalRecHitsEB_ : EcalRecHitCollection
  ecalRecHitsEE_ : EcalRecHitCollection

/-! ## Operations -/

/-- One iteration of the loop of `getSaturationInfo` (lines 102-107) on the
state `(nrSatCrys, seedSaturated)`. -/
def saturationStep (ecalRecHits : EcalRecHitCollection) (seedId : DetId)
    (acc : Int × Bool) (hitFractionPair : DetId × float) : Int × Bool :=
  match ecalRecHits.find hitFractionPair.1 with
  | some ecalRecHit =>
    if ecalRecHit.checkFlag_kSaturated then
      (acc.1 + 1, if hitFractionPair.1 = seedId then true else acc.2)
    else acc
  | none => acc

/-- The method `EG8XObjectUpdateModifier::getSaturationInfo` (lines 94-110). -/
def EG8XObjectUpdateModifier.getSaturationInfo (m : EG8XObjectUpdateModifier)
    (superClus : SuperCluster) : Int × Bool :=
  let isEB : Bool := decide (superClus.seed.seed.subdetId = EcalBarrel)
  let ecalRecHits := if isEB then m.ecalRecHitsEB_ else m.ecalRecHitsEE_
  let hitsAndFractions := superClus.seed.hitsAndFractions
  hitsAndFractions.foldl (saturationStep ecalRecHits superClus.seed.seed) (0, false)

/-- The method `EG8XObjectUpdateModifier::modifyObject(reco::GsfElectron&)`
(lines 61-84); the two library modes `noZS::EcalClusterTools` and
`EcalClusterTools` are parameters. -/
def EG8XObjectUpdateModifier.modifyObject_GsfElectron
    (noZS_EcalClusterTools EcalClusterTools : EcalClusterToolsT)
    (m : EG8XObjectUpdateModifier) (ele : GsfElectron) : GsfElectron :=
  let seedClus := ele.superCluster.seed
  let ecalRecHits := if ele.isEB then m.ecalRecHitsEB_ else m.ecalRecHitsEE_
  let full5x5ShowerShapes := ele.full5x5_showerShape
  let full5x5ShowerShapes := { full5x5ShowerShapes with
    e2x5Left := noZS_EcalClusterTools.e2x5Left seedClus ecalRecHits m.caloTopo_ }
  let full5x5ShowerShapes := { full5x5ShowerShapes with
    e2x5Right := noZS_EcalClusterTools.e2x5Right seedClus ecalRecHits m.caloTopo_ }
  let full5x5ShowerShapes := { full5x5ShowerShapes with
    e2x5Top := noZS_EcalClusterTools.e2x5Top seedClus ecalRecHits m.caloTopo_ }
  let full5x5ShowerShapes := { full5x5ShowerShapes with
    e2x5Bottom := noZS_EcalClusterTools.e2x5Bottom seedClus ecalRecHits m.caloTopo_ }
  let ele := ele.full5x5_setShowerShape full5x5ShowerShapes
  let showerShapes := ele.showerShape
  let showerShapes := { showerShapes with
    e2x5Left := EcalClusterTools.e2x5Left seedClus ecalRecHits m.caloTopo_ }
  let showerShapes := { showerShapes with
    e2x5Right := EcalClusterTools.e2x5Right seedClus ecalRecHits m.caloTopo_ }
  let showerShapes := { showerShapes with
    e2x5Top := EcalClusterTools.e2x5Top seedClus ecalRecHits m.caloTopo_ }
  let showerShapes := { showerShapes with
    e2x5Bottom := EcalClusterTools.e2x5Bottom seedClus ecalRecHits m.caloTopo_ }
  let ele := ele.setShowerShape showerShapes
  let satInfo := m.getSaturationInfo ele.superCluster
  let eleSatInfo : SaturationInfo :=
    { nSaturatedXtals := satInfo.1, isSeedSaturated := satInfo.2 }
  ele.setSaturationInfo eleSatInfo

/-- The method `EG8XObjectUpdateModifier::modifyObject(reco::Photon&)`
(lines 86-92). -/
def EG8XObjectUpdateModifier.modifyObject_Photon
    (m : EG8XObjectUpdateModifier) (pho : Photon) : Photon :=
  let satInfo := m.getSaturationInfo pho.superCluster
  let phoSatInfo : SaturationInfo :=
    { nSaturatedXtals := satInfo.1, isSeedSaturated := satInfo.2 }
  pho.setSaturationInfo phoSatInfo

/-! ## The specification's reading of the two selectors -/

/-- The Region Selector of section 4.1, `selectHitCollection(candidate)`: one
of the two hit collections, chosen by the candidate's region flag (the
expression of line 63). -/
def EG8XObjectUpdateModifier.selectHitCollection (m : EG8XObjectUpdateModifier)
    (ele : GsfElectron) : EcalRecHitCollection :=
  if ele.isEB then m.ecalRecHitsEB_ else m.ecalRecHitsEE_

/-- The collection in which `getSaturationInfo` performs its lookups
(lines 95-96): chosen by the subdetector of the seed cluster's highest-energy
crystal identifier. -/
def EG8XObjectUpdateModifier.lookedUpRecHits (m : EG8XObjectUpdateModifier)
    (superClus : SuperCluster) : EcalRecHitCollection :=
  if superClus.seed.seed.subdetId = EcalBarrel then m.ecalRecHitsEB_ else m.ecalRecHitsEE_

/-- Steps 3-4 of the Saturation Evaluator of section 4.2, written from the
specification: walk the constituent list in order, skip absent identifiers,
count saturated records and raise the seed flag on the distinguished
identifier. -/
def evaluateSaturationFrom (hitCollection : EcalRecHitCollection) (seedId : DetId) :
    List (DetId × float) → Int → Bool → Int × Bool
  | [], count, seedSaturated => (count, seedSaturated)
  | (identifier, _) :: rest, count, seedSaturated =>
    match hitCollection identifier with
    | none => evaluateSaturationFrom hitCollection seedId rest count seedSaturated
    | some record =>
      if record.saturated then
        evaluateSaturationFrom hitCollection seedId rest (count + 1)
          (seedSaturated || decide (identifier = seedId))
      else
        evaluateSaturationFrom hitCollection seedId rest count seedSaturated

/-- The Saturation Evaluator of section 4.2, written from the specification:
`evaluateSaturation(clusterGroup, hitCollection)`. -/
def evaluateSaturation (clusterGroup : SuperCluster) (hitCollection : EcalRecHitCollection) :
    Int × Bool :=
  let seedCluster := clusterGroup.seed
  evaluateSaturationFrom hitCollection seedCluster.seed seedCluster.hitsAndFractions 0 false

/-- Whether `id` has a record in `ecalRecHits` that carries the saturated flag
(the condition of line 103). -/
def isSaturatedIn (ecalRecHits : EcalRecHitCollection) (id : DetId) : Bool :=
  match ecalRecHits.find id with
  | some ecalRecHit => ecalRecHit.checkFlag_kSaturated
  | none => false

/-! ## Concrete inputs -/

/-- A hit record for crystal `id` with the given saturated flag. -/
def mkHit (id : DetId) (saturated : Bool) : EcalRecHit :=
  { id := id, energy := 0, time := 0, saturated := saturated, otherFlags := 0 }

/-- The empty hit collection. -/
def noHits : EcalRecHitCollection := fun _ => none

/-- The cluster of scenarios A and B: constituents 1, 2, 3 and seed 1. -/
def scenarioCluster : SuperCluster :=
  { seed := { hitsAndFractions := [(1, 3/5), (2, 3/10), (3, 1/10)], seed := 1 }, clusters := [] }

/-- Scenario A: crystal 1 saturated, crystal 2 present and not saturated,
crystal 3 absent. -/
def scenarioA_hits : EcalRecHitCollection := fun id =>
  if id = 1 then some (mkHit 1 true) else if id = 2 then some (mkHit 2 false) else none

/-- Scenario B: crystals 2 and 3 saturated, crystal 1 absent. -/
def scenarioB_hits : EcalRecHitCollection := fun id =>
  if id = 2 then some (mkHit 2 true) else if id = 3 then some (mkHit 3 true) else none

/-- A plugin object whose two collections are both `hits`. -/
def modifierWith (hits : EcalRecHitCollection) : EG8XObjectUpdateModifier :=
  { caloTopo_ := { descriptor := 0 }, ecalRecHitsEB_ := hits, ecalRecHitsEE_ := hits }

/-- A cluster whose distinguished identifier 1 is not among its constituents
(the only constituent is crystal 2). -/
def offListSeedCluster : SuperCluster :=
  { seed := { hitsAndFractions := [(2, 1)], seed := 1 }, clusters := [] }

/-- Saturated records for crystals 7 and 8 only: no identifier of
`scenarioCluster` has a record. -/
def farHits : EcalRecHitCollection := fun id =>
  if id = 7 then some (mkHit 7 true) else if id = 8 then some (mkHit 8 true) else none

/-- Scenario A with crystal 2 marked saturated as well. -/
def scenarioA_hits_more : EcalRecHitCollection := fun id =>
  if id = 1 then some (mkHit 1 true) else if id = 2 then some (mkHit 2 true) else none

/-- A shape summary with all four recomputed fields 0 and the given payload. -/
def mkShape (otherFields : List float) : ShowerShape :=
  { e2x5Left := 0, e2x5Right := 0, e2x5Top := 0, e2x5Bottom := 0, otherFields := otherFields }

/-- A library mode that returns left 1, right 2, top 3, bottom 4 on every
input (scenario D). -/
def scenarioD_tools : EcalClusterToolsT :=
  { e2x5Left := fun _ _ _ => 1, e2x5Right := fun _ _ _ => 2,
    e2x5Top := fun _ _ _ => 3, e2x5Bottom := fun _ _ _ => 4 }

/-- An endcap crystal identifier: raw word `0x34000001`, subdetector 2. -/
def endcapCrystal : DetId := 872415233

/-- A barrel crystal identifier: raw word `0x32000001`, subdetector 1. -/
def barrelCrystal : DetId := 838860801

/-- A cluster group whose seed cluster is the single crystal `id`. -/
def singleCrystalCluster (id : DetId) : SuperCluster :=
  { seed := { hitsAndFractions := [(id, 1)], seed := id }, clusters := [] }

/-- A collection holding one saturated record, for crystal `id`. -/
def oneSaturatedHit (id : DetId) : EcalRecHitCollection := fun k =>
  if k = id then some (mkHit id true) else none

/-- An electron on the cluster group `sc` with region flag `isEB`. -/
def mkElectron (sc : SuperCluster) (isEB : Bool) : GsfElectron :=
  { superCluster := sc, isEB := isEB, full5x5_showerShape := mkShape [5, 6],
    showerShape := mkShape [7], saturationInfo := { nSaturatedXtals := 0, isSeedSaturated := false } }

/-- A plugin object with an empty barrel collection and an endcap collection
holding one saturated record for `endcapCrystal`. -/
def endcapOnlyModifier : EG8XObjectUpdateModifier :=
  { caloTopo_ := { descriptor := 0 }, ecalRecHitsEB_ := noHits,
    ecalRecHitsEE_ := oneSaturatedHit endcapCrystal }

/-- A plugin object with a barrel collection holding one saturated record for
`barrelCrystal` and an empty endcap collection. -/
def barrelOnlyModifier : EG8XObjectUpdateModifier :=
  { caloTopo_ := { descriptor := 0 }, ecalRecHitsEB_ := oneSaturatedHit barrelCrystal,
    ecalRecHitsEE_ := noHits }

/-- The (count, seedSaturated) pair held by a saturation summary. -/
def SaturationInfo.toPair (s : SaturationInfo) : Int × Bool :=
  (s.nSaturatedXtals, s.isSeedSaturated)

/-- A photon on the cluster group `sc` with region flag `isEB`. -/
def mkPhoton (sc : SuperCluster) (isEB : Bool) : Photon :=
  { superCluster := sc, isEB := isEB, full5x5_showerShape := mkShape [8],
    showerShape := mkShape [9], saturationInfo := { nSaturatedXtals := 5, isSeedSaturated := true } }

/-- The constituents of `scenarioCluster` in the order 3, 1, 2. -/
def scenarioConstituentsRotated : List (DetId × float) :=
  [(3, 1/10), (1, 3/5), (2, 3/10)]

/-- The cluster group `superClus` with the constituent list of its seed cluster
replaced by `hitsAndFractions`. -/
def SuperCluster.withHitsAndFractions (superClus : SuperCluster)
    (hitsAndFractions : List (DetId × float)) : SuperCluster :=
  { superClus with seed := { superClus.seed with hitsAndFractions := hitsAndFractions } }

/-! ## The loop of `getSaturationInfo` in closed form -/

theorem isSaturatedIn_iff (ecalRecHits : EcalRecHitCollection) (id : DetId) :
    isSaturatedIn ecalRecHits id = true ↔
      ∃ hit, ecalRecHits.find id = some hit ∧ hit.saturated = true := by
  unfold isSaturatedIn EcalRecHit.checkFlag_kSaturated
  cases h : ecalRecHits.find id with
  | none => simp
  | some hit => simp

theorem saturationStep_eq (ecalRecHits : EcalRecHitCollection) (seedId : DetId)
    (acc : Int × Bool) (p : DetId × float) :
    saturationStep ecalRecHits seedId acc p =
      if isSaturatedIn ecalRecHits p.1 then (acc.1 + 1, acc.2 || decide (p.1 = seedId))
      else acc := by
  unfold saturationStep isSaturatedIn
  cases h : ecalRecHits.find p.1 with
  | none => simp
  | some hit =>
    by_cases hs : hit.checkFlag_kSaturated = true
    · by_cases hp : p.1 = seedId <;> simp [hs, hp]
    · simp [hs]

theorem foldl_saturationStep (ecalRecHits : EcalRecHitCollection) (seedId : DetId)
    (l : List (DetId × float)) (count : Int) (seedSaturated : Bool) :
    l.foldl (saturationStep ecalRecHits seedId) (count, seedSaturated) =
      (count + ((l.countP (fun p => isSaturatedIn ecalRecHits p.1) : Nat) : Int),
        seedSaturated ||
          l.any (fun p => isSaturatedIn ecalRecHits p.1 && decide (p.1 = seedId))) := by
  induction l generalizing count seedSaturated with
  | nil => simp
  | cons p rest ih =>
    rw [List.foldl_cons, saturationStep_eq]
    by_cases hs : isSaturatedIn ecalRecHits p.1 = true
    · simp only [hs, if_true, ih, List.countP_cons_of_pos, List.any_cons, Bool.true_and]
      refine Prod.ext ?_ ?_
      · simp only [Nat.cast_add, Nat.cast_one]; ring
      · simp only [Bool.or_assoc]
    · have hc : (p :: rest).countP (fun p => isSaturatedIn ecalRecHits p.1) =
          rest.countP (fun p => isSaturatedIn ecalRecHits p.1) :=
        List.countP_cons_of_neg (fun p => isSaturatedIn ecalRecHits p.1) rest hs
      rw [hc]
      simp [hs, ih]

theorem getSaturationInfo_closed (m : EG8XObjectUpdateModifier) (superClus : SuperCluster) :
    m.getSaturationInfo superClus =
      (((superClus.seed.hitsAndFractions.countP
          (fun p => isSaturatedIn (m.lookedUpRecHits superClus) p.1) : Nat) : Int),
        superClus.seed.hitsAndFractions.any
          (fun p => isSaturatedIn (m.lookedUpRecHits superClus) p.1 &&
            decide (p.1 = superClus.seed.seed))) := by
  unfold EG8XObjectUpdateModifier.getSaturationInfo EG8XObjectUpdateModifier.lookedUpRecHits
  simp only [foldl_saturationStep, zero_add, Bool.false_or]
  by_cases h : superClus.seed.seed.subdetId = EcalBarrel <;> simp [h]

theorem getSaturationInfo_count_le_length (m : EG8XObjectUpdateModifier)
    (superClus : SuperCluster) :
    (m.getSaturationInfo superClus).1 ≤ (superClus.seed.hitsAndFractions.length : Int) := by
  rw [getSaturationInfo_closed]
  show ((_ : Nat) : Int) ≤ _
  exact_mod_cast List.countP_le_length _

theorem evaluateSaturationFrom_eq_foldl (hitCollection : EcalRecHitCollection) (seedId : DetId)
    (l : List (DetId × float)) (count : Int) (seedSaturated : Bool) :
    evaluateSaturationFrom hitCollection seedId l count seedSaturated =
      l.foldl (saturationStep hitCollection seedId) (count, seedSaturated) := by
  induction l generalizing count seedSaturated with
  | nil => rfl
  | cons p rest ih =>
    obtain ⟨identifier, fraction⟩ := p
    rw [List.foldl_cons, saturationStep_eq, evaluateSaturationFrom]
    unfold isSaturatedIn EcalRecHitCollection.find EcalRecHit.checkFlag_kSaturated
    cases h : hitCollection identifier with
    | none => simpa using ih count seedSaturated
    | some record =>
      by_cases hs : record.saturated = true
      · simpa [hs] using ih (count + 1) (seedSaturated || decide (identifier = seedId))
      · simpa [hs] using ih count seedSaturated

theorem getSaturationInfo_eq_evaluateSaturation (m : EG8XObjectUpdateModifier)
    (superClus : SuperCluster) :
    m.getSaturationInfo superClus = evaluateSaturation superClus (m.lookedUpRecHits superClus) := by
  unfold evaluateSaturation
  simp only [evaluateSaturationFrom_eq_foldl]
  unfold EG8XObjectUpdateModifier.getSaturationInfo EG8XObjectUpdateModifier.lookedUpRecHits
  by_cases h : superClus.seed.seed.subdetId = EcalBarrel <;> simp [h]

/-! ## The saturation summary -/

/-- C1 (amended): the seed flag returned by `getSaturationInfo` is true if
and only if the seed cluster's distinguished highest-energy identifier occurs
in the seed cluster's (identifier, fraction) list, has a hit record in the
looked-up collection, and that record carries the saturated flag.  Scenario A
(constituents 1, 2, 3, seed 1; crystal 1 saturated, crystal 2 not saturated,
crystal 3 absent) gives (1, true). -/
theorem getSaturationInfo_seedSaturated_iff (m : EG8XObjectUpdateModifier)
    (superClus : SuperCluster) :
    ((m.getSaturationInfo superClus).2 = true ↔
      superClus.seed.seed ∈ superClus.seed.hitsAndFractions.map Prod.fst ∧
        ∃ hit, (m.lookedUpRecHits superClus).find superClus.seed.seed = some hit ∧
          hit.saturated = true) ∧
      (modifierWith scenarioA_hits).getSaturationInfo scenarioCluster = (1, true) := by
  refine ⟨?_, by decide⟩
  rw [getSaturationInfo_closed]
  simp only [List.any_eq_true, Bool.and_eq_true, decide_eq_true_eq]
  constructor
  · rintro ⟨p, hp, hsat, heq⟩
    refine ⟨List.mem_map.2 ⟨p, hp, heq⟩, ?_⟩
    rw [← heq]
    exact (isSaturatedIn_iff _ _).1 hsat
  · rintro ⟨hmem, hex⟩
    obtain ⟨p, hp, heq⟩ := List.mem_map.1 hmem
    refine ⟨p, hp, ?_, heq⟩
    rw [heq]
    exact (isSaturatedIn_iff _ _).2 hex

/-- C1 (as stated) fails: for a seed cluster whose distinguished identifier 1
is not among its constituents, the looked-up collection holds a saturated
record for crystal 1, yet the returned seed flag is false. -/
theorem seedSaturated_iff_fails_off_list :
    ¬ (((modifierWith scenarioA_hits).getSaturationInfo offListSeedCluster).2 = true ↔
        ∃ hit, ((modifierWith scenarioA_hits).lookedUpRecHits offListSeedCluster).find
            offListSeedCluster.seed.seed = some hit ∧ hit.saturated = true) := by
  intro h
  have hfalse : ((modifierWith scenarioA_hits).getSaturationInfo offListSeedCluster).2 = false := by
    decide
  have htrue := h.2 ⟨mkHit 1 true, by decide, by decide⟩
  rw [hfalse] at htrue
  exact Bool.false_ne_true htrue

/-- C2: the count returned by `getSaturationInfo` is the number of
(identifier, fraction) pairs of the seed cluster, each occurrence counted
once, whose identifier satisfies the counted condition; an identifier
satisfies it exactly when it has a record in the looked-up collection with the
saturated flag set, so absent identifiers and present, unsaturated ones
contribute nothing.  For constituents 1, 2, 3
with seed 1 and a collection where 2 and 3 are saturated and 1 is absent the
result is (2, false). -/
theorem getSaturationInfo_count_eq (m : EG8XObjectUpdateModifier) (superClus : SuperCluster) :
    (m.getSaturationInfo superClus).1 =
        ((superClus.seed.hitsAndFractions.countP
          (fun p => isSaturatedIn (m.lookedUpRecHits superClus) p.1) : Nat) : Int) ∧
      (∀ id, isSaturatedIn (m.lookedUpRecHits superClus) id = true ↔
        ∃ hit, (m.lookedUpRecHits superClus).find id = some hit ∧ hit.saturated = true) ∧
      (modifierWith scenarioB_hits).getSaturationInfo scenarioCluster = (2, false) := by
  refine ⟨?_, fun id => isSaturatedIn_iff _ id, by decide⟩
  rw [getSaturationInfo_closed]

/-- C4: if the looked-up collection has a record for none of the seed
cluster's constituent identifiers (the empty list included), then
`getSaturationInfo` returns exactly (0, false), whatever records the
collection holds for other identifiers. -/
theorem getSaturationInfo_no_records (m : EG8XObjectUpdateModifier) (superClus : SuperCluster)
    (habsent : ∀ p ∈ superClus.seed.hitsAndFractions,
      (m.lookedUpRecHits superClus).find p.1 = none) :
    m.getSaturationInfo superClus = (0, false) := by
  rw [getSaturationInfo_closed]
  have hsat : ∀ p ∈ superClus.seed.hitsAndFractions,
      isSaturatedIn (m.lookedUpRecHits superClus) p.1 = false := by
    intro p hp
    simp [isSaturatedIn, habsent p hp]
  refine Prod.ext ?_ ?_
  · have hc : superClus.seed.hitsAndFractions.countP
        (fun p => isSaturatedIn (m.lookedUpRecHits superClus) p.1) = 0 := by
      rw [List.countP_eq_zero]
      intro p hp
      simp [hsat p hp]
    simp [hc]
  · rw [List.any_eq_false]
    intro p hp
    simp [hsat p hp]

/-- Witness for C4: constituents 1, 2, 3 against a collection that holds
saturated records for crystals 7 and 8 only. -/
theorem getSaturationInfo_no_records_witness :
    (∀ p ∈ scenarioCluster.seed.hitsAndFractions,
        ((modifierWith farHits).lookedUpRecHits scenarioCluster).find p.1 = none) ∧
      farHits 7 = some (mkHit 7 true) ∧
      (modifierWith farHits).getSaturationInfo scenarioCluster = (0, false) :=
  ⟨by decide, by decide, getSaturationInfo_no_records _ _ (by decide)⟩

/-- C5: the count returned by `getSaturationInfo` lies between 0 and the
number of (identifier, fraction) pairs of the seed cluster. -/
theorem getSaturationInfo_count_bounds (m : EG8XObjectUpdateModifier) (superClus : SuperCluster) :
    0 ≤ (m.getSaturationInfo superClus).1 ∧
      (m.getSaturationInfo superClus).1 ≤ (superClus.seed.hitsAndFractions.length : Int) := by
  refine ⟨?_, getSaturationInfo_count_le_length m superClus⟩
  rw [getSaturationInfo_closed]
  exact Int.natCast_nonneg _

/-- C6: if two plugin states have looked-up collections with the same set of
identifiers, and every record saturated in the first is also saturated in the
second, then the count returned on the second is at least the count returned
on the first. -/
theorem getSaturationInfo_count_mono (m m' : EG8XObjectUpdateModifier) (superClus : SuperCluster)
    (hids : ∀ id, ((m.lookedUpRecHits superClus).find id).isSome =
      ((m'.lookedUpRecHits superClus).find id).isSome)
    (hsat : ∀ id hit hit', (m.lookedUpRecHits superClus).find id = some hit →
      (m'.lookedUpRecHits superClus).find id = some hit' →
      hit.saturated = true → hit'.saturated = true) :
    (m.getSaturationInfo superClus).1 ≤ (m'.getSaturationInfo superClus).1 := by
  rw [getSaturationInfo_closed, getSaturationInfo_closed]
  show ((_ : Nat) : Int) ≤ ((_ : Nat) : Int)
  refine Int.ofNat_le.2 (List.countP_mono_left ?_)
  intro p _ hp
  obtain ⟨hit, hfind, hflag⟩ := (isSaturatedIn_iff _ _).1 hp
  have hsome := hids p.1
  rw [hfind, Option.isSome_some] at hsome
  obtain ⟨hit', hfind'⟩ := Option.isSome_iff_exists.1 hsome.symm
  exact (isSaturatedIn_iff _ _).2 ⟨hit', hfind', hsat p.1 hit hit' hfind hfind' hflag⟩

/-- Witness for C6: scenario A against scenario A with crystal 2 marked
saturated as well; the count grows from 1 to 2. -/
theorem getSaturationInfo_count_mono_witness :
    ((modifierWith scenarioA_hits).getSaturationInfo scenarioCluster).1 = 1 ∧
      ((modifierWith scenarioA_hits_more).getSaturationInfo scenarioCluster).1 = 2 ∧
      ((modifierWith scenarioA_hits).getSaturationInfo scenarioCluster).1 ≤
        ((modifierWith scenarioA_hits_more).getSaturationInfo scenarioCluster).1 :=
  ⟨by decide, by decide,
    getSaturationInfo_count_mono (modifierWith scenarioA_hits) (modifierWith scenarioA_hits_more)
      scenarioCluster
      (by
        intro id
        by_cases h1 : id = 1
        · subst h1; decide
        · by_cases h2 : id = 2
          · subst h2; decide
          · simp [EG8XObjectUpdateModifier.lookedUpRecHits, modifierWith,
              EcalRecHitCollection.find, scenarioA_hits, scenarioA_hits_more, h1, h2])
      (by
        intro id hit hit' hfind hfind' hflag
        by_cases h1 : id = 1
        · subst h1
          have e : hit' = mkHit 1 true := by
            have : some hit' = some (mkHit 1 true) := by rw [← hfind']; decide
            exact Option.some.inj this
          rw [e]; decide
        · by_cases h2 : id = 2
          · subst h2
            have e : hit' = mkHit 2 true := by
              have : some hit' = some (mkHit 2 true) := by rw [← hfind']; decide
              exact Option.some.inj this
            rw [e]; decide
          · simp [EG8XObjectUpdateModifier.lookedUpRecHits, modifierWith,
              EcalRecHitCollection.find, scenarioA_hits, h1, h2] at hfind)⟩

/-- C7: if the looked-up collections of two plugin states differ only in the
saturated flag of one record, whose identifier is not the seed cluster's
distinguished highest-energy identifier, then `getSaturationInfo` returns the
same seed flag on both. -/
theorem getSaturationInfo_seedSaturated_other_flag (m m' : EG8XObjectUpdateModifier)
    (superClus : SuperCluster) (other : DetId)
    (hne : other ≠ superClus.seed.seed)
    (hsame : ∀ id, id ≠ other →
      (m.lookedUpRecHits superClus).find id = (m'.lookedUpRecHits superClus).find id)
    (_hflag : ((m.lookedUpRecHits superClus).find other).map
        (fun hit => { hit with saturated := false }) =
      ((m'.lookedUpRecHits superClus).find other).map
        (fun hit => { hit with saturated := false })) :
    (m.getSaturationInfo superClus).2 = (m'.getSaturationInfo superClus).2 := by
  rw [getSaturationInfo_closed, getSaturationInfo_closed]
  show List.any _ _ = List.any _ _
  congr 1
  funext p
  by_cases hp : p.1 = superClus.seed.seed
  · have hpo : p.1 ≠ other := fun h => hne (h ▸ hp)
    simp only [isSaturatedIn, hsame p.1 hpo]
  · simp [hp]

/-- Witness for C7: scenario A against scenario A with the flag of crystal 2
(not the seed crystal 1) switched on; the seed flag is true on both. -/
theorem getSaturationInfo_seedSaturated_other_flag_witness :
    ((modifierWith scenarioA_hits).lookedUpRecHits scenarioCluster).find 2 = some (mkHit 2 false) ∧
      ((modifierWith scenarioA_hits_more).lookedUpRecHits scenarioCluster).find 2 =
        some (mkHit 2 true) ∧
      ((modifierWith scenarioA_hits).getSaturationInfo scenarioCluster).2 = true ∧
      ((modifierWith scenarioA_hits).getSaturationInfo scenarioCluster).2 =
        ((modifierWith scenarioA_hits_more).getSaturationInfo scenarioCluster).2 :=
  ⟨by decide, by decide, by decide,
    getSaturationInfo_seedSaturated_other_flag (modifierWith scenarioA_hits)
      (modifierWith scenarioA_hits_more) scenarioCluster 2 (by decide)
      (by
        intro id hid
        by_cases h1 : id = 1
        · subst h1; decide
        · simp [EG8XObjectUpdateModifier.lookedUpRecHits, modifierWith,
            EcalRecHitCollection.find, scenarioA_hits, scenarioA_hits_more, h1, hid])
      (by decide)⟩

/-- C8: if the looked-up collection has no record for the seed cluster's
distinguished highest-energy identifier, `getSaturationInfo` returns a false
seed flag, whatever the other constituents are. -/
theorem getSaturationInfo_seed_absent (m : EG8XObjectUpdateModifier) (superClus : SuperCluster)
    (habsent : (m.lookedUpRecHits superClus).find superClus.seed.seed = none) :
    (m.getSaturationInfo superClus).2 = false := by
  rw [getSaturationInfo_closed]
  show List.any _ _ = false
  rw [List.any_eq_false]
  intro p _
  by_cases hp : p.1 = superClus.seed.seed
  · simp [isSaturatedIn, hp, habsent]
  · simp [hp]

/-- Witness for C8: scenario B, where the seed crystal 1 is absent and two
other constituents are saturated: the count is 2 and the seed flag false. -/
theorem getSaturationInfo_seed_absent_witness :
    ((modifierWith scenarioB_hits).lookedUpRecHits scenarioCluster).find
        scenarioCluster.seed.seed = none ∧
      ((modifierWith scenarioB_hits).getSaturationInfo scenarioCluster).1 = 2 ∧
      ((modifierWith scenarioB_hits).getSaturationInfo scenarioCluster).2 = false :=
  ⟨by decide, by decide, getSaturationInfo_seed_absent _ _ (by decide)⟩

/-! ## The electron update -/

/-- C3 (amended): the (count, seedSaturated) pair that `modifyObject` writes
into an electron's saturation summary is the saturation evaluation of the
electron's cluster group against the collection selected by the subdetector of
the seed cluster's highest-energy crystal identifier (barrel if it is
`EcalBarrel`, endcap otherwise); when the electron's region flag `isEB` agrees
with that subdetector test, this is the collection selected by the region
flag, the one the shape update uses. -/
theorem modifyObject_saturationInfo (noZS_EcalClusterTools EcalClusterTools : EcalClusterToolsT)
    (m : EG8XObjectUpdateModifier) (ele : GsfElectron) :
    (m.modifyObject_GsfElectron noZS_EcalClusterTools EcalClusterTools ele).saturationInfo.toPair =
        evaluateSaturation ele.superCluster (m.lookedUpRecHits ele.superCluster) ∧
      (ele.isEB = decide (ele.superCluster.seed.seed.subdetId = EcalBarrel) →
        (m.modifyObject_GsfElectron noZS_EcalClusterTools EcalClusterTools
            ele).saturationInfo.toPair =
          evaluateSaturation ele.superCluster (m.selectHitCollection ele)) := by
  have hwritten :
      (m.modifyObject_GsfElectron noZS_EcalClusterTools EcalClusterTools
          ele).saturationInfo.toPair = m.getSaturationInfo ele.superCluster := rfl
  rw [hwritten, getSaturationInfo_eq_evaluateSaturation]
  refine ⟨rfl, fun hagree => ?_⟩
  unfold EG8XObjectUpdateModifier.selectHitCollection EG8XObjectUpdateModifier.lookedUpRecHits
  rw [hagree]
  by_cases h : ele.superCluster.seed.seed.subdetId = EcalBarrel <;> simp [h]

/-- Witness for C3 (amended): a barrel electron (flag and seed crystal agree)
whose seed crystal is saturated in the barrel collection receives (1, true). -/
theorem modifyObject_saturationInfo_witness :
    (mkElectron (singleCrystalCluster barrelCrystal) true).isEB =
        decide ((mkElectron (singleCrystalCluster barrelCrystal)
          true).superCluster.seed.seed.subdetId = EcalBarrel) ∧
      evaluateSaturation (singleCrystalCluster barrelCrystal)
        (barrelOnlyModifier.selectHitCollection
          (mkElectron (singleCrystalCluster barrelCrystal) true)) = (1, true) ∧
      (barrelOnlyModifier.modifyObject_GsfElectron scenarioD_tools scenarioD_tools
          (mkElectron (singleCrystalCluster barrelCrystal) true)).saturationInfo.toPair =
        evaluateSaturation (mkElectron (singleCrystalCluster barrelCrystal) true).superCluster
          (barrelOnlyModifier.selectHitCollection
            (mkElectron (singleCrystalCluster barrelCrystal) true)) :=
  ⟨by decide, by decide,
    (modifyObject_saturationInfo scenarioD_tools scenarioD_tools barrelOnlyModifier
      (mkElectron (singleCrystalCluster barrelCrystal) true)).2 (by decide)⟩

/-- C3 (as stated) fails: an electron whose region flag says barrel while its
seed crystal lies in the endcap receives (1, true), the evaluation against the
endcap collection, whereas the evaluation against the collection selected by
its region flag (the empty barrel collection) is (0, false). -/
theorem modifyObject_saturationInfo_ignores_region_flag :
    (endcapOnlyModifier.modifyObject_GsfElectron scenarioD_tools scenarioD_tools
          (mkElectron (singleCrystalCluster endcapCrystal) true)).saturationInfo.toPair = (1, true) ∧
      evaluateSaturation (mkElectron (singleCrystalCluster endcapCrystal) true).superCluster
        (endcapOnlyModifier.selectHitCollection
          (mkElectron (singleCrystalCluster endcapCrystal) true)) = (0, false) ∧
      (endcapOnlyModifier.modifyObject_GsfElectron scenarioD_tools scenarioD_tools
          (mkElectron (singleCrystalCluster endcapCrystal) true)).saturationInfo.toPair ≠
        evaluateSaturation (mkElectron (singleCrystalCluster endcapCrystal) true).superCluster
          (endcapOnlyModifier.selectHitCollection
            (mkElectron (singleCrystalCluster endcapCrystal) true)) := by
  decide

/-- C9: after `modifyObject` on an electron, each of the two shower-shape
summaries is its previous value with at most the four fields e2x5Left,
e2x5Right, e2x5Top, e2x5Bottom overwritten, so every other field keeps its
previous value; with a library returning left 1, right 2, top 3, bottom 4 in
both modes, both summaries show exactly those four values next to their old
remaining fields. -/
theorem modifyObject_showerShape_frame
    (noZS_EcalClusterTools EcalClusterTools : EcalClusterToolsT)
    (m : EG8XObjectUpdateModifier) (ele : GsfElectron) :
    (m.modifyObject_GsfElectron noZS_EcalClusterTools EcalClusterTools ele).full5x5_showerShape =
        { ele.full5x5_showerShape with
          e2x5Left := (m.modifyObject_GsfElectron noZS_EcalClusterTools EcalClusterTools
            ele).full5x5_showerShape.e2x5Left
          e2x5Right := (m.modifyObject_GsfElectron noZS_EcalClusterTools EcalClusterTools
            ele).full5x5_showerShape.e2x5Right
          e2x5Top := (m.modifyObject_GsfElectron noZS_EcalClusterTools EcalClusterTools
            ele).full5x5_showerShape.e2x5Top
          e2x5Bottom := (m.modifyObject_GsfElectron noZS_EcalClusterTools EcalClusterTools
            ele).full5x5_showerShape.e2x5Bottom } ∧
      (m.modifyObject_GsfElectron noZS_EcalClusterTools EcalClusterTools ele).showerShape =
        { ele.showerShape with
          e2x5Left := (m.modifyObject_GsfElectron noZS_EcalClusterTools EcalClusterTools
            ele).showerShape.e2x5Left
          e2x5Right := (m.modifyObject_GsfElectron noZS_EcalClusterTools EcalClusterTools
            ele).showerShape.e2x5Right
          e2x5Top := (m.modifyObject_GsfElectron noZS_EcalClusterTools EcalClusterTools
            ele).showerShape.e2x5Top
          e2x5Bottom := (m.modifyObject_GsfElectron noZS_EcalClusterTools EcalClusterTools
            ele).showerShape.e2x5Bottom } ∧
      (m.modifyObject_GsfElectron noZS_EcalClusterTools EcalClusterTools
          ele).full5x5_showerShape.otherFields = ele.full5x5_showerShape.otherFields ∧
      (m.modifyObject_GsfElectron noZS_EcalClusterTools EcalClusterTools
          ele).showerShape.otherFields = ele.showerShape.otherFields ∧
      (m.modifyObject_GsfElectron scenarioD_tools scenarioD_tools ele).full5x5_showerShape =
        { e2x5Left := 1, e2x5Right := 2, e2x5Top := 3, e2x5Bottom := 4,
          otherFields := ele.full5x5_showerShape.otherFields } ∧
      (m.modifyObject_GsfElectron scenarioD_tools scenarioD_tools ele).showerShape =
        { e2x5Left := 1, e2x5Right := 2, e2x5Top := 3, e2x5Bottom := 4,
          otherFields := ele.showerShape.otherFields } :=
  ⟨rfl, rfl, rfl, rfl, rfl, rfl⟩

/-- C10: `modifyObject` sets the four e2x5 fields of an electron's full5x5
summary to the values of the noZS library functions of the same names and the
four e2x5 fields of its standard summary to the values of the standard-mode
library functions of the same names; all eight calls receive the electron's
seed cluster, the barrel hit collection if the region flag `isEB` is true and
the endcap hit collection otherwise, and the topology. -/
theorem modifyObject_showerShape_values
    (noZS_EcalClusterTools EcalClusterTools : EcalClusterToolsT)
    (m : EG8XObjectUpdateModifier) (ele : GsfElectron) :
    (m.modifyObject_GsfElectron noZS_EcalClusterTools EcalClusterTools
          ele).full5x5_showerShape.e2x5Left =
        noZS_EcalClusterTools.e2x5Left ele.superCluster.seed
          (if ele.isEB then m.ecalRecHitsEB_ else m.ecalRecHitsEE_) m.caloTopo_ ∧
      (m.modifyObject_GsfElectron noZS_EcalClusterTools EcalClusterTools
          ele).full5x5_showerShape.e2x5Right =
        noZS_EcalClusterTools.e2x5Right ele.superCluster.seed
          (if ele.isEB then m.ecalRecHitsEB_ else m.ecalRecHitsEE_) m.caloTopo_ ∧
      (m.modifyObject_GsfElectron noZS_EcalClusterTools EcalClusterTools
          ele).full5x5_showerShape.e2x5Top =
        noZS_EcalClusterTools.e2x5Top ele.superCluster.seed
          (if ele.isEB then m.ecalRecHitsEB_ else m.ecalRecHitsEE_) m.caloTopo_ ∧
      (m.modifyObject_GsfElectron noZS_EcalClusterTools EcalClusterTools
          ele).full5x5_showerShape.e2x5Bottom =
        noZS_EcalClusterTools.e2x5Bottom ele.superCluster.seed
          (if ele.isEB then m.ecalRecHitsEB_ else m.ecalRecHitsEE_) m.caloTopo_ ∧
      (m.modifyObject_GsfElectron noZS_EcalClusterTools EcalClusterTools
          ele).showerShape.e2x5Left =
        EcalClusterTools.e2x5Left ele.superCluster.seed
          (if ele.isEB then m.ecalRecHitsEB_ else m.ecalRecHitsEE_) m.caloTopo_ ∧
      (m.modifyObject_GsfElectron noZS_EcalClusterTools EcalClusterTools
          ele).showerShape.e2x5Right =
        EcalClusterTools.e2x5Right ele.superCluster.seed
          (if ele.isEB then m.ecalRecHitsEB_ else m.ecalRecHitsEE_) m.caloTopo_ ∧
      (m.modifyObject_GsfElectron noZS_EcalClusterTools EcalClusterTools
          ele).showerShape.e2x5Top =
        EcalClusterTools.e2x5Top ele.superCluster.seed
          (if ele.isEB then m.ecalRecHitsEB_ else m.ecalRecHitsEE_) m.caloTopo_ ∧
      (m.modifyObject_GsfElectron noZS_EcalClusterTools EcalClusterTools
          ele).showerShape.e2x5Bottom =
        EcalClusterTools.e2x5Bottom ele.superCluster.seed
          (if ele.isEB then m.ecalRecHitsEB_ else m.ecalRecHitsEE_) m.caloTopo_ :=
  ⟨rfl, rfl, rfl, rfl, rfl, rfl, rfl, rfl⟩

/-! ## The photon update, repetition and order -/

/-- C11: `modifyObject` on a photon changes only the photon's saturation
summary, which becomes the (count, seedSaturated) pair returned by
`getSaturationInfo` on the photon's cluster group; the two shower-shape
summaries, the region flag and the cluster group are unchanged.  The photon
update has no shape-library argument at all, and its result does not depend
on the topology the library would need. -/
theorem modifyObject_Photon_frame (m : EG8XObjectUpdateModifier) (pho : Photon) :
    (m.modifyObject_Photon pho).saturationInfo.toPair = m.getSaturationInfo pho.superCluster ∧
      m.modifyObject_Photon pho =
        { pho with saturationInfo := (m.modifyObject_Photon pho).saturationInfo } ∧
      (m.modifyObject_Photon pho).full5x5_showerShape = pho.full5x5_showerShape ∧
      (m.modifyObject_Photon pho).showerShape = pho.showerShape ∧
      (m.modifyObject_Photon pho).isEB = pho.isEB ∧
      (m.modifyObject_Photon pho).superCluster = pho.superCluster ∧
      (∀ caloTopo : CaloTopology,
        EG8XObjectUpdateModifier.modifyObject_Photon { m with caloTopo_ := caloTopo } pho =
          m.modifyObject_Photon pho) :=
  ⟨rfl, rfl, rfl, rfl, rfl, rfl, fun _ => rfl⟩

/-- C12: for fixed hit collections, topology and library functions, applying
`modifyObject` twice in succession to an electron, or to a photon, leaves the
candidate exactly as after one application; in particular the saturation
summary and both shower-shape summaries are the same after the first and
after the second call. -/
theorem modifyObject_idempotent (noZS_EcalClusterTools EcalClusterTools : EcalClusterToolsT)
    (m : EG8XObjectUpdateModifier) (ele : GsfElectron) (pho : Photon) :
    m.modifyObject_GsfElectron noZS_EcalClusterTools EcalClusterTools
        (m.modifyObject_GsfElectron noZS_EcalClusterTools EcalClusterTools ele) =
      m.modifyObject_GsfElectron noZS_EcalClusterTools EcalClusterTools ele ∧
    m.modifyObject_Photon (m.modifyObject_Photon pho) = m.modifyObject_Photon pho :=
  ⟨rfl, rfl⟩

/-- C13: `getSaturationInfo` returns the same (count, seedSaturated) pair on
every permutation of the seed cluster's (identifier, fraction) list. -/
theorem getSaturationInfo_perm (m : EG8XObjectUpdateModifier) (superClus : SuperCluster)
    (permuted : List (DetId × float))
    (hperm : permuted.Perm superClus.seed.hitsAndFractions) :
    m.getSaturationInfo (superClus.withHitsAndFractions permuted) =
      m.getSaturationInfo superClus := by
  rw [getSaturationInfo_closed, getSaturationInfo_closed]
  have hlook : m.lookedUpRecHits (superClus.withHitsAndFractions permuted) =
      m.lookedUpRecHits superClus := rfl
  rw [hlook]
  show (((List.countP _ permuted : Nat) : Int), List.any permuted _) = _
  refine Prod.ext ?_ ?_
  · show ((List.countP _ permuted : Nat) : Int) = ((List.countP _ _ : Nat) : Int)
    rw [hperm.countP_eq]
  · show List.any permuted _ = List.any superClus.seed.hitsAndFractions _
    rw [Bool.eq_iff_iff, List.any_eq_true, List.any_eq_true]
    constructor
    · rintro ⟨p, hp, h⟩
      exact ⟨p, hperm.mem_iff.1 hp, h⟩
    · rintro ⟨p, hp, h⟩
      exact ⟨p, hperm.mem_iff.2 hp, h⟩

/-- Witness for C13: scenario A with the constituents in the order 3, 1, 2
still gives (1, true). -/
theorem getSaturationInfo_perm_witness :
    scenarioConstituentsRotated.Perm scenarioCluster.seed.hitsAndFractions ∧
      (modifierWith scenarioA_hits).getSaturationInfo
        (scenarioCluster.withHitsAndFractions scenarioConstituentsRotated) = (1, true) ∧
      (modifierWith scenarioA_hits).getSaturationInfo
          (scenarioCluster.withHitsAndFractions scenarioConstituentsRotated) =
        (modifierWith scenarioA_hits).getSaturationInfo scenarioCluster :=
  ⟨(List.Perm.swap _ _ _).trans (List.Perm.cons _ (List.Perm.swap _ _ _)), by decide,
    getSaturationInfo_perm _ _ _
      ((List.Perm.swap _ _ _).trans (List.Perm.cons _ (List.Perm.swap _ _ _)))⟩

/-! ## Region choice and consistency of the saturation summary -/

/-- C14: `getSaturationInfo` performs its lookups in the barrel collection
when the subdetector of the seed cluster's highest-energy crystal identifier
is `EcalBarrel` and in the endcap collection for every other subdetector
value: its result is the saturation evaluation over that one collection and
does not change when the other collection is replaced. -/
theorem getSaturationInfo_region (m : EG8XObjectUpdateModifier) (superClus : SuperCluster) :
    (superClus.seed.seed.subdetId = EcalBarrel →
      m.getSaturationInfo superClus = evaluateSaturation superClus m.ecalRecHitsEB_ ∧
        ∀ ecalRecHitsEE : EcalRecHitCollection,
          EG8XObjectUpdateModifier.getSaturationInfo
              { m with ecalRecHitsEE_ := ecalRecHitsEE } superClus =
            m.getSaturationInfo superClus) ∧
      (superClus.seed.seed.subdetId ≠ EcalBarrel →
        m.getSaturationInfo superClus = evaluateSaturation superClus m.ecalRecHitsEE_ ∧
          ∀ ecalRecHitsEB : EcalRecHitCollection,
            EG8XObjectUpdateModifier.getSaturationInfo
                { m with ecalRecHitsEB_ := ecalRecHitsEB } superClus =
              m.getSaturationInfo superClus) := by
  constructor
  · intro h
    refine ⟨?_, fun ee => ?_⟩
    · rw [getSaturationInfo_eq_evaluateSaturation]
      simp [EG8XObjectUpdateModifier.lookedUpRecHits, h]
    · rw [getSaturationInfo_eq_evaluateSaturation, getSaturationInfo_eq_evaluateSaturation]
      simp [EG8XObjectUpdateModifier.lookedUpRecHits, h]
  · intro h
    refine ⟨?_, fun eb => ?_⟩
    · rw [getSaturationInfo_eq_evaluateSaturation]
      simp [EG8XObjectUpdateModifier.lookedUpRecHits, h]
    · rw [getSaturationInfo_eq_evaluateSaturation, getSaturationInfo_eq_evaluateSaturation]
      simp [EG8XObjectUpdateModifier.lookedUpRecHits, h]

/-- Witness for C14: a barrel seed crystal is evaluated against the barrel
collection, whatever the endcap collection holds, and an endcap seed crystal
against the endcap collection, whatever the barrel collection holds. -/
theorem getSaturationInfo_region_witness :
    ((singleCrystalCluster barrelCrystal).seed.seed.subdetId = EcalBarrel ∧
        evaluateSaturation (singleCrystalCluster barrelCrystal)
          barrelOnlyModifier.ecalRecHitsEB_ = (1, true) ∧
        barrelOnlyModifier.getSaturationInfo (singleCrystalCluster barrelCrystal) =
          evaluateSaturation (singleCrystalCluster barrelCrystal)
            barrelOnlyModifier.ecalRecHitsEB_ ∧
        EG8XObjectUpdateModifier.getSaturationInfo
            { barrelOnlyModifier with ecalRecHitsEE_ := oneSaturatedHit endcapCrystal }
            (singleCrystalCluster barrelCrystal) =
          barrelOnlyModifier.getSaturationInfo (singleCrystalCluster barrelCrystal)) ∧
      ((singleCrystalCluster endcapCrystal).seed.seed.subdetId ≠ EcalBarrel ∧
        evaluateSaturation (singleCrystalCluster endcapCrystal)
          endcapOnlyModifier.ecalRecHitsEE_ = (1, true) ∧
        endcapOnlyModifier.getSaturationInfo (singleCrystalCluster endcapCrystal) =
          evaluateSaturation (singleCrystalCluster endcapCrystal)
            endcapOnlyModifier.ecalRecHitsEE_ ∧
        EG8XObjectUpdateModifier.getSaturationInfo
            { endcapOnlyModifier with ecalRecHitsEB_ := oneSaturatedHit endcapCrystal }
            (singleCrystalCluster endcapCrystal) =
          endcapOnlyModifier.getSaturationInfo (singleCrystalCluster endcapCrystal)) :=
  ⟨⟨by decide, by decide,
      ((getSaturationInfo_region barrelOnlyModifier (singleCrystalCluster barrelCrystal)).1
        (by decide)).1,
      ((getSaturationInfo_region barrelOnlyModifier (singleCrystalCluster barrelCrystal)).1
        (by decide)).2 _⟩,
    ⟨by decide, by decide,
      ((getSaturationInfo_region endcapOnlyModifier (singleCrystalCluster endcapCrystal)).2
        (by decide)).1,
      ((getSaturationInfo_region endcapOnlyModifier (singleCrystalCluster endcapCrystal)).2
        (by decide)).2 _⟩⟩

/-- C15: if the seed cluster's distinguished highest-energy identifier occurs
in the seed cluster's (identifier, fraction) list, the seed flag returned by
`getSaturationInfo` is true exactly when that identifier has a record in the
looked-up collection with the saturated flag set; if it does not occur in the
list, the seed flag is false for every pair of hit collections. -/
theorem getSaturationInfo_seedSaturated_by_listing (m : EG8XObjectUpdateModifier)
    (superClus : SuperCluster) :
    (superClus.seed.seed ∈ superClus.seed.hitsAndFractions.map Prod.fst →
      ((m.getSaturationInfo superClus).2 = true ↔
        ∃ hit, (m.lookedUpRecHits superClus).find superClus.seed.seed = some hit ∧
          hit.saturated = true)) ∧
      (superClus.seed.seed ∉ superClus.seed.hitsAndFractions.map Prod.fst →
        ∀ m' : EG8XObjectUpdateModifier, (m'.getSaturationInfo superClus).2 = false) := by
  constructor
  · intro hmem
    rw [getSaturationInfo_closed]
    simp only [List.any_eq_true, Bool.and_eq_true, decide_eq_true_eq]
    constructor
    · rintro ⟨p, _, hsat, heq⟩
      rw [← heq]
      exact (isSaturatedIn_iff _ _).1 hsat
    · intro hex
      obtain ⟨p, hp, heq⟩ := List.mem_map.1 hmem
      refine ⟨p, hp, ?_, heq⟩
      rw [heq]
      exact (isSaturatedIn_iff _ _).2 hex
  · intro hnot m'
    rw [getSaturationInfo_closed]
    show List.any _ _ = false
    rw [List.any_eq_false]
    intro p hp
    have hne : p.1 ≠ superClus.seed.seed := fun heq =>
      hnot (List.mem_map.2 ⟨p, hp, heq⟩)
    simp [hne]

/-- Witness for C15: in scenario A the seed crystal 1 is listed and saturated,
so the flag is true; in the cluster with constituents 2 and seed 1 the seed
crystal is not listed, so the flag is false although crystal 1 is saturated. -/
theorem getSaturationInfo_seedSaturated_by_listing_witness :
    (scenarioCluster.seed.seed ∈ scenarioCluster.seed.hitsAndFractions.map Prod.fst ∧
        ((modifierWith scenarioA_hits).getSaturationInfo scenarioCluster).2 = true ∧
        (((modifierWith scenarioA_hits).getSaturationInfo scenarioCluster).2 = true ↔
          ∃ hit, ((modifierWith scenarioA_hits).lookedUpRecHits scenarioCluster).find
            scenarioCluster.seed.seed = some hit ∧ hit.saturated = true)) ∧
      (offListSeedCluster.seed.seed ∉ offListSeedCluster.seed.hitsAndFractions.map Prod.fst ∧
        scenarioA_hits 1 = some (mkHit 1 true) ∧
        ((modifierWith scenarioA_hits).getSaturationInfo offListSeedCluster).2 = false) :=
  ⟨⟨by decide, by decide,
      (getSaturationInfo_seedSaturated_by_listing (modifierWith scenarioA_hits)
        scenarioCluster).1 (by decide)⟩,
    ⟨by decide, by decide,
      (getSaturationInfo_seedSaturated_by_listing (modifierWith scenarioA_hits)
        offListSeedCluster).2 (by decide) (modifierWith scenarioA_hits)⟩⟩

/-- C16: the two components returned by `getSaturationInfo` are consistent: a
true seed flag comes with a count of at least 1, and a count of 0 comes with
a false seed flag. -/
theorem getSaturationInfo_seedSaturated_count_pos (m : EG8XObjectUpdateModifier)
    (superClus : SuperCluster) :
    ((m.getSaturationInfo superClus).2 = true → 1 ≤ (m.getSaturationInfo superClus).1) ∧
      ((m.getSaturationInfo superClus).1 = 0 → (m.getSaturationInfo superClus).2 = false) := by
  have hpos : (m.getSaturationInfo superClus).2 = true →
      1 ≤ (m.getSaturationInfo superClus).1 := by
    rw [getSaturationInfo_closed]
    intro hflag
    obtain ⟨p, hp, hsat⟩ := List.any_eq_true.1 hflag
    have hp1 : isSaturatedIn (m.lookedUpRecHits superClus) p.1 = true := by
      simp only [Bool.and_eq_true] at hsat
      exact hsat.1
    have hcount : 0 < superClus.seed.hitsAndFractions.countP
        (fun p => isSaturatedIn (m.lookedUpRecHits superClus) p.1) :=
      List.countP_pos_iff.2 ⟨p, hp, hp1⟩
    show (1 : Int) ≤ ((_ : Nat) : Int)
    exact_mod_cast hcount
  refine ⟨hpos, fun hzero => ?_⟩
  cases hflag : (m.getSaturationInfo superClus).2 with
  | false => rfl
  | true =>
    have := hpos hflag
    omega

/-- Witness for C16: scenario A has a true seed flag and count 1; the
collection without any record of the cluster has count 0 and a false flag. -/
theorem getSaturationInfo_seedSaturated_count_pos_witness :
    (((modifierWith scenarioA_hits).getSaturationInfo scenarioCluster).2 = true ∧
        1 ≤ ((modifierWith scenarioA_hits).getSaturationInfo scenarioCluster).1) ∧
      (((modifierWith farHits).getSaturationInfo scenarioCluster).1 = 0 ∧
        ((modifierWith farHits).getSaturationInfo scenarioCluster).2 = false) :=
  ⟨⟨by decide,
      (getSaturationInfo_seedSaturated_count_pos (modifierWith scenarioA_hits)
        scenarioCluster).1 (by decide)⟩,
    ⟨by decide,
      (getSaturationInfo_seedSaturated_count_pos (modifierWith farHits)
        scenarioCluster).2 (by decide)⟩⟩

/-- C17: the saturation summary written by `modifyObject` depends only on the
candidate's cluster group and the two hit collections: a photon and an
electron on the same cluster group receive equal summaries; for an electron
the written summary is the same for either value of the region flag `isEB`
and for any previous saturation summary; and any two electron updates whose
cluster groups and hit collections coincide write the same summary, whatever
the library functions, topology and remaining candidate fields are. -/
theorem modifyObject_saturationInfo_depends_only
    (noZS_EcalClusterTools EcalClusterTools noZS_EcalClusterTools' EcalClusterTools' :
      EcalClusterToolsT)
    (m m' : EG8XObjectUpdateModifier) (ele ele' : GsfElectron) (pho : Photon) :
    (pho.superCluster = ele.superCluster →
      (m.modifyObject_Photon pho).saturationInfo =
        (m.modifyObject_GsfElectron noZS_EcalClusterTools EcalClusterTools
          ele).saturationInfo) ∧
      (∀ (isEB : Bool) (previous : SaturationInfo),
        (m.modifyObject_GsfElectron noZS_EcalClusterTools EcalClusterTools
            { ele with isEB := isEB, saturationInfo := previous }).saturationInfo =
          (m.modifyObject_GsfElectron noZS_EcalClusterTools EcalClusterTools
            ele).saturationInfo) ∧
      (ele'.superCluster = ele.superCluster →
        m'.ecalRecHitsEB_ = m.ecalRecHitsEB_ →
        m'.ecalRecHitsEE_ = m.ecalRecHitsEE_ →
        (m'.modifyObject_GsfElectron noZS_EcalClusterTools' EcalClusterTools'
            ele').saturationInfo =
          (m.modifyObject_GsfElectron noZS_EcalClusterTools EcalClusterTools
            ele).saturationInfo) := by
  have hele : ∀ (n z : EcalClusterToolsT) (k : EG8XObjectUpdateModifier) (e : GsfElectron),
      (k.modifyObject_GsfElectron n z e).saturationInfo =
        { nSaturatedXtals := (k.getSaturationInfo e.superCluster).1,
          isSeedSaturated := (k.getSaturationInfo e.superCluster).2 } := fun _ _ _ _ => rfl
  have hpho : (m.modifyObject_Photon pho).saturationInfo =
      { nSaturatedXtals := (m.getSaturationInfo pho.superCluster).1,
        isSeedSaturated := (m.getSaturationInfo pho.superCluster).2 } := rfl
  refine ⟨fun hsc => ?_, fun _ _ => rfl, fun hsc hEB hEE => ?_⟩
  · rw [hpho, hele, hsc]
  · rw [hele, hele, hsc]
    unfold EG8XObjectUpdateModifier.getSaturationInfo
    rw [hEB, hEE]

/-- Witness for C17: on one barrel cluster group, a photon and an electron
whose region flag says endcap both receive (1, true). -/
theorem modifyObject_saturationInfo_depends_only_witness :
    (mkPhoton (singleCrystalCluster barrelCrystal) true).superCluster =
        (mkElectron (singleCrystalCluster barrelCrystal) false).superCluster ∧
      (barrelOnlyModifier.modifyObject_Photon
        (mkPhoton (singleCrystalCluster barrelCrystal) true)).saturationInfo.toPair = (1, true) ∧
      (barrelOnlyModifier.modifyObject_Photon
          (mkPhoton (singleCrystalCluster barrelCrystal) true)).saturationInfo =
        (barrelOnlyModifier.modifyObject_GsfElectron scenarioD_tools scenarioD_tools
          (mkElectron (singleCrystalCluster barrelCrystal) false)).saturationInfo ∧
      (barrelOnlyModifier.modifyObject_GsfElectron scenarioD_tools scenarioD_tools
          (mkElectron (singleCrystalCluster barrelCrystal) true)).saturationInfo =
        (barrelOnlyModifier.modifyObject_GsfElectron scenarioD_tools scenarioD_tools
          (mkElectron (singleCrystalCluster barrelCrystal) false)).saturationInfo :=
  ⟨rfl, by decide,
    (modifyObject_saturationInfo_depends_only scenarioD_tools scenarioD_tools scenarioD_tools
      scenarioD_tools barrelOnlyModifier barrelOnlyModifier
      (mkElectron (singleCrystalCluster barrelCrystal) false)
      (mkElectron (singleCrystalCluster barrelCrystal) true)
      (mkPhoton (singleCrystalCluster barrelCrystal) true)).1 rfl,
    (modifyObject_saturationInfo_depends_only scenarioD_tools scenarioD_tools scenarioD_tools
      scenarioD_tools barrelOnlyModifier barrelOnlyModifier
      (mkElectron (singleCrystalCluster barrelCrystal) false)
      (mkElectron (singleCrystalCluster barrelCrystal) true)
      (mkPhoton (singleCrystalCluster barrelCrystal) true)).2.2 rfl rfl rfl⟩

end EG8X
